import Mathlib

/-!
Verification of `taski-rs/shell` (`src/lib.rs`), a minimal shell abstraction
for xtask build scripts.  The Rust source is embedded shallowly:

* paths are lists of components (`Path`); `parsePath` mirrors `PathBuf::from`
  on absolute slash-separated strings, `parent` mirrors `Path::parent`;
* the process environment snapshot (`fakeenv::EnvStore`) is an association
  list `EnvMap`; the compile-time environment probed by `option_env!` is a
  function `String → Option String`;
* the filesystem is a finite map from paths to node kinds (`FS`); the std
  `fs` operations used by the source (`create_dir`, `create_dir_all`,
  `remove_dir`, `remove_dir_all`, `remove_file`) are modelled explicitly;
* `std::process::Command` is a record of the configuration the source sets
  (program, args, cwd, cleared/explicit environment, stdio); spawning is
  modelled by an oracle `Except IOErr ExitStatus` giving the outcome that
  `Command::status` would observe, and `Subprocess.run` reports whether a
  spawn was attempted;
* `panic!`/`expect` in `Shell::new` is modelled by `Option`
  (`none` = process abort).
-/

namespace TaskiShell

/-- A filesystem path, as its list of components.  `[]` is the root `/`. -/
abbrev Path : Type := List String

/-- Splits a character list on `/`, keeping empty pieces (the obvious
structural recursion; always returns at least one piece). -/
def splitComponents : List Char → List (List Char)
  | [] => [[]]
  | c :: rest =>
    match splitComponents rest with
    | [] => [[]]
    | cur :: acc =>
      if c = '/' then [] :: cur :: acc else (c :: cur) :: acc

/-- Mirrors `PathBuf::from` on an absolute slash-separated string:
split on `/` and drop empty components. -/
def parsePath (s : String) : Path :=
  ((splitComponents s.data).map (fun cs => String.mk cs)).filter
    (fun c => c ≠ "")

/-- Mirrors `std::path::Path::parent`: `none` at the root, otherwise the
path with its last component removed.  `ancestors().nth(1)` in the source
is exactly `parent()`. -/
def Path.parent (p : Path) : Option Path :=
  if p = [] then none else some p.dropLast

/-- An environment snapshot: association list of variable names to values
(keys unique in the snapshot taken by `EnvStore::fake`). -/
abbrev EnvMap : Type := List (String × String)

/-- Last-write-wins lookup: the value of the **latest** binding of `k`,
matching insertion into the map kept by `std::process::Command`. -/
def lookupLast (l : EnvMap) (k : String) : Option String :=
  List.lookup k l.reverse

/-- Mirrors `io::Error` kinds that the modelled `std::fs` operations and
`Command::status` can produce. -/
inductive IOErr : Type
  | alreadyExists
  | notFound
  | notADirectory
  | directoryNotEmpty
  | permissionDenied
  | other (description : String)
deriving DecidableEq, Repr

/-- Mirrors the private `ErrorKind` enum of the source:
`Io(io::Error)` or `Msg(Cow<'static, str>)`. -/
inductive ErrorKind : Type
  | ioError (e : IOErr)
  | msg (s : String)
deriving DecidableEq, Repr

/-- Mirrors `pub struct Error(ErrorKind)`. -/
structure Error : Type where
  kind : ErrorKind
deriving DecidableEq, Repr

/-- Mirrors `pub type Result<T> = std::result::Result<T, Error>`. -/
abbrev SResult (α : Type) : Type := Except Error α

/-- The kind of an existing filesystem node: directory, regular file, or
anything else (dangling symlink, socket, device, ...).  `Path::is_dir` /
`Path::is_file` in the source classify exactly these, with absence as the
fourth outcome (modelled by `Option.none` in `kindOf`). -/
inductive NodeKind : Type
  | dir
  | file
  | other
deriving DecidableEq, Repr

/-- A filesystem: finite map from paths to node kinds (first binding wins;
absent paths do not exist). -/
abbrev FS : Type := List (Path × NodeKind)

/-- The kind of `p` in `fs`; the root always exists as a directory. -/
def kindOf (fs : FS) (p : Path) : Option NodeKind :=
  if p = [] then some NodeKind.dir else List.lookup p fs

/-- Mirrors `pub struct Shell` (the `PhantomData<Rc<()>>` thread anchor has
no behavioural content and is omitted). -/
structure Shell : Type where
  env_store : EnvMap
  project_root : Path
  target_dir : Path
deriving DecidableEq, Repr

/-- The two process-aborting sites in `Shell::new`: the
`expect("missing CARGO_MANIFEST_DIR")` and the `unwrap` on
`ancestors().nth(1)`. -/
inductive Panic : Type
  | missingManifestDir
  | manifestDirHasNoParent
deriving DecidableEq, Repr

/-- Mirrors `Shell::new`.  `envs` is the snapshot taken by
`EnvStore::fake()`; `buildEnv` is the compile-time environment probed by
`option_env!`.  `Except.error` models a process abort (panic), tagged
with which of the two panic sites fired. -/
def Shell.new (envs : EnvMap) (buildEnv : String → Option String) :
    Except Panic Shell :=
  match (List.lookup "CARGO_MANIFEST_DIR" envs).orElse
      (fun _ => buildEnv "CARGO_MANIFEST_DIR") with
  | none => Except.error Panic.missingManifestDir
  | some m =>
    let manifest_dir := parsePath m
    match manifest_dir.parent with
    | none => Except.error Panic.manifestDirHasNoParent
    | some project_root =>
      let target_dir :=
        match List.lookup "CARGO_TARGET_DIR" envs with
        | some t => parsePath t
        | none => project_root ++ ["target"]
      Except.ok ⟨envs, project_root, target_dir⟩

/-- Stdio configuration for one child stream, mirroring the
`std::process::Stdio` values the source uses. -/
inductive Stdio : Type
  | null
  | inherit
deriving DecidableEq, Repr

/-- Mirrors `pub struct Subprocess { command: Command, dry_run: bool }`,
with the `Command` fields the source configures made explicit.
`envCleared` records whether `env_clear()` was called and `envOps` the
explicit `env`/`envs` insertions in order (later insertions win). -/
structure Subprocess : Type where
  program : String
  args : List String
  cwd : Path
  envCleared : Bool
  envOps : EnvMap
  stdinCfg : Stdio
  stdoutCfg : Stdio
  stderrCfg : Stdio
  dry_run : Bool
deriving DecidableEq, Repr

/-- Mirrors `Shell::subprocess`: dry-run captured from the presence of
`DRY_RUN` in the snapshot; working directory the project root; environment
cleared then loaded from the snapshot; stdin null, stdout/stderr
inherited. -/
def Shell.subprocess (sh : Shell) (program : String) : Subprocess :=
  { program := program
    args := []
    cwd := sh.project_root
    envCleared := true
    envOps := sh.env_store
    stdinCfg := Stdio.null
    stdoutCfg := Stdio.inherit
    stderrCfg := Stdio.inherit
    dry_run := (List.lookup "DRY_RUN" sh.env_store).isSome }

/-- Mirrors `Shell::rustc`: tool path from the `RUSTC` snapshot variable,
else the compile-time `option_env!("RUSTC")`, else `"rustc"`. -/
def Shell.rustc (sh : Shell) (buildEnv : String → Option String) :
    Subprocess :=
  sh.subprocess
    (((List.lookup "RUSTC" sh.env_store).orElse
        (fun _ => buildEnv "RUSTC")).getD "rustc")

/-- Mirrors `Shell::cargo`: tool path from the `CARGO` snapshot variable,
else the compile-time `option_env!("CARGO")`, else `"cargo"`. -/
def Shell.cargo (sh : Shell) (buildEnv : String → Option String) :
    Subprocess :=
  sh.subprocess
    (((List.lookup "CARGO" sh.env_store).orElse
        (fun _ => buildEnv "CARGO")).getD "cargo")

/-- Mirrors `Subprocess::arg`. -/
def Subprocess.arg (s : Subprocess) (a : String) : Subprocess :=
  { s with args := s.args ++ [a] }

/-- Mirrors `Subprocess::args`. -/
def Subprocess.args' (s : Subprocess) (as : List String) : Subprocess :=
  { s with args := s.args ++ as }

/-- Mirrors `Subprocess::env`: records one more explicit insertion into
the child environment map (insertion overwrites, i.e. the latest binding
of a key wins — see `effectiveChildEnv`). -/
def Subprocess.env (s : Subprocess) (k v : String) : Subprocess :=
  { s with envOps := s.envOps ++ [(k, v)] }

/-- Mirrors `Subprocess::silent`: stdout and stderr to the null device. -/
def Subprocess.silent (s : Subprocess) : Subprocess :=
  { s with stdoutCfg := Stdio.null, stderrCfg := Stdio.null }

/-- The environment the child process would receive, as a lookup function:
the semantics of `std::process::Command`.  `live` is the calling process's
live environment at spawn time; an explicit insertion of `k` wins
(latest binding first), otherwise `k` is inherited from `live` unless
`env_clear()` was called. -/
def effectiveChildEnv (live : EnvMap) (s : Subprocess) (k : String) :
    Option String :=
  match lookupLast s.envOps k with
  | some v => some v
  | none => if s.envCleared then none else List.lookup k live

/-- Mirrors `std::process::ExitStatus`: `code` is `none` when no exit code
is available (signal termination). -/
structure ExitStatus : Type where
  code : Option Int
deriving DecidableEq, Repr

/-- Mirrors `ExitStatus::success`: termination with exit code zero. -/
def ExitStatus.success (st : ExitStatus) : Bool :=
  st.code == some 0

instance {ε α : Type} [DecidableEq ε] [DecidableEq α] :
    DecidableEq (Except ε α) := fun x y =>
  match x, y with
  | Except.ok a, Except.ok b =>
    if h : a = b then isTrue (congrArg Except.ok h) else
      isFalse (fun hc => h (by injection hc))
  | Except.ok _, Except.error _ => isFalse (fun hc => by injection hc)
  | Except.error _, Except.ok _ => isFalse (fun hc => by injection hc)
  | Except.error e, Except.error f =>
    if h : e = f then isTrue (congrArg Except.error h) else
      isFalse (fun hc => h (by injection hc))

/-- The observable outcome of `Subprocess::run`: its return value, whether
a process spawn was attempted, and the user-visible notices printed to
stderr by this layer. -/
structure RunOutcome : Type where
  result : SResult Unit
  spawnAttempted : Bool
  notices : List String
deriving DecidableEq, Repr

/-- Mirrors `Subprocess::run`.  `spawn` is the oracle for
`Command::status()`: `Except.error e` models a spawn failure with OS error
`e`, `Except.ok st` a child that ran to completion with status `st`. -/
def Subprocess.run (s : Subprocess) (spawn : Except IOErr ExitStatus) :
    RunOutcome :=
  if s.dry_run then
    { result := Except.ok ()
      spawnAttempted := false
      notices := ["[cargo-xtask] - skipped"] }
  else
    match spawn with
    | Except.error e =>
      { result := Except.error ⟨ErrorKind.ioError e⟩
        spawnAttempted := true
        notices := [] }
    | Except.ok st =>
      if st.success then
        { result := Except.ok (), spawnAttempted := true, notices := [] }
      else
        { result := Except.error ⟨ErrorKind.msg
            ("Subprocess failed with the exit code " ++
              toString (st.code.getD 0))⟩
          spawnAttempted := true
          notices := [] }

/-- Mirrors the `bitflags!`-generated `CreateFlags: u32` with
`RECURSIVE = 0b1`. -/
structure CreateFlags : Type where
  bits : Nat
deriving DecidableEq, Repr

/-- `CreateFlags::RECURSIVE`. -/
def CreateFlags.RECURSIVE : CreateFlags := ⟨1⟩

/-- Mirrors `bitflags` `contains`: all bits of `g` are set in `f`. -/
def CreateFlags.contains (f g : CreateFlags) : Bool :=
  f.bits &&& g.bits == g.bits

/-- Mirrors the `bitflags!`-generated `RemoveFlags: u32` with
`RECURSIVE = 0b1`. -/
structure RemoveFlags : Type where
  bits : Nat
deriving DecidableEq, Repr

/-- `RemoveFlags::RECURSIVE`. -/
def RemoveFlags.RECURSIVE : RemoveFlags := ⟨1⟩

/-- Mirrors `bitflags` `contains`: all bits of `g` are set in `f`. -/
def RemoveFlags.contains (f g : RemoveFlags) : Bool :=
  f.bits &&& g.bits == g.bits

/-- Mirrors `std::fs::create_dir` (one `mkdir`): fails if the target
already exists (any kind), if the parent does not exist, or if the parent
is not a directory; otherwise records the new directory. -/
def mkdir (fs : FS) (p : Path) : Except IOErr FS :=
  if (kindOf fs p).isSome then Except.error IOErr.alreadyExists
  else
    match p.parent with
    | none => Except.error IOErr.notFound
    | some q =>
      match kindOf fs q with
      | some NodeKind.dir => Except.ok ((p, NodeKind.dir) :: fs)
      | some _ => Except.error IOErr.notADirectory
      | none => Except.error IOErr.notFound

/-- Helper for `create_dir_all`, structurally recursive on the reversed
path (`rp.reverse` is the path to create; the tail of `rp` reversed is its
parent): succeeds immediately if the target is already a directory,
otherwise ensures the parent recursively and then performs one `mkdir`.
The filesystem is threaded so ancestors created before a failure
persist. -/
def cdaRev (fs : FS) : List String → Except IOErr Unit × FS
  | [] => (Except.ok (), fs)
  | c :: rest =>
    if kindOf fs ((c :: rest).reverse) = some NodeKind.dir then
      (Except.ok (), fs)
    else
      match cdaRev fs rest with
      | (Except.error e, fs1) => (Except.error e, fs1)
      | (Except.ok _, fs1) =>
        match mkdir fs1 ((c :: rest).reverse) with
        | Except.ok fs2 => (Except.ok (), fs2)
        | Except.error e => (Except.error e, fs1)

/-- Mirrors `std::fs::create_dir_all` (recursion on `Path::parent`). -/
def create_dir_all (fs : FS) (p : Path) : Except IOErr Unit × FS :=
  cdaRev fs p.reverse

/-- Wraps a modelled `std::fs` outcome into the crate's error type, as
`map_err(Error::io_error)` does. -/
def liftFs : Except IOErr Unit × FS → SResult Unit × FS
  | (Except.ok _, fs) => (Except.ok (), fs)
  | (Except.error e, fs) => (Except.error ⟨ErrorKind.ioError e⟩, fs)

/-- Mirrors `Shell::create_dir`: `create_dir_all` when `RECURSIVE` is in
`flags`, a single `create_dir` otherwise. -/
def Shell.create_dir (fs : FS) (p : Path) (flags : CreateFlags) :
    SResult Unit × FS :=
  if flags.contains CreateFlags.RECURSIVE then
    liftFs (create_dir_all fs p)
  else
    match mkdir fs p with
    | Except.ok fs1 => (Except.ok (), fs1)
    | Except.error e => (Except.error ⟨ErrorKind.ioError e⟩, fs)

/-- Whether `p` has a strict descendant present in `fs` (a non-empty
directory). -/
def hasChild (fs : FS) (p : Path) : Bool :=
  fs.any (fun e => p.isPrefixOf e.1 && e.1 != p)

/-- Mirrors `std::fs::remove_dir`: fails on a non-empty directory,
otherwise deletes the single node. -/
def removeDir (fs : FS) (p : Path) : Except IOErr Unit × FS :=
  if hasChild fs p then (Except.error IOErr.directoryNotEmpty, fs)
  else (Except.ok (), fs.filter (fun e => e.1 ≠ p))

/-- Mirrors `std::fs::remove_dir_all`: deletes the node and every
descendant. -/
def removeDirAll (fs : FS) (p : Path) : Except IOErr Unit × FS :=
  (Except.ok (), fs.filter (fun e => !(p.isPrefixOf e.1)))

/-- Mirrors `std::fs::remove_file`. -/
def removeFile (fs : FS) (p : Path) : Except IOErr Unit × FS :=
  (Except.ok (), fs.filter (fun e => e.1 ≠ p))

/-- Mirrors `Shell::remove`: classify the target with `is_dir`/`is_file`
and dispatch; any other outcome (absent path, or an existing node that is
neither a directory nor a regular file) falls through to `Ok(())` with no
filesystem call. -/
def Shell.remove (fs : FS) (p : Path) (flags : RemoveFlags) :
    SResult Unit × FS :=
  if kindOf fs p = some NodeKind.dir then
    if flags.contains RemoveFlags.RECURSIVE then liftFs (removeDirAll fs p)
    else liftFs (removeDir fs p)
  else if kindOf fs p = some NodeKind.file then
    liftFs (removeFile fs p)
  else (Except.ok (), fs)

/-- One chained configuration call on a Command Builder. -/
inductive BuilderOp : Type
  | addArg (a : String)
  | addArgs (as : List String)
  | setEnv (k v : String)
  | makeSilent
deriving DecidableEq, Repr

/-- Applies one chained call. -/
def applyOp (s : Subprocess) : BuilderOp → Subprocess
  | BuilderOp.addArg a => s.arg a
  | BuilderOp.addArgs as => s.args' as
  | BuilderOp.setEnv k v => s.env k v
  | BuilderOp.makeSilent => s.silent

/-- Applies a whole chain of configuration calls, in call order. -/
def applyOps (s : Subprocess) (ops : List BuilderOp) : Subprocess :=
  List.foldl applyOp s ops

/-- The environment overrides contributed by a chain, in call order. -/
def chainOverrides : List BuilderOp → EnvMap
  | [] => []
  | BuilderOp.setEnv k v :: rest => (k, v) :: chainOverrides rest
  | BuilderOp.addArg _ :: rest => chainOverrides rest
  | BuilderOp.addArgs _ :: rest => chainOverrides rest
  | BuilderOp.makeSilent :: rest => chainOverrides rest

/-- Well-formedness of a modelled filesystem, as holds of every real one:
every strict ancestor of a recorded node is a directory.  (Stated over all
recorded entries via their prefix lists, so it is decidable.) -/
def WF (fs : FS) : Bool :=
  fs.all (fun e => e.1.inits.all
    (fun q => q == e.1 || kindOf fs q == some NodeKind.dir))

/-! ### Helper lemmas about builder chains and environment lookup -/

theorem applyOp_dry_run (s : Subprocess) (op : BuilderOp) :
    (applyOp s op).dry_run = s.dry_run := by
  cases op <;> rfl

theorem applyOps_dry_run (ops : List BuilderOp) (s : Subprocess) :
    (applyOps s ops).dry_run = s.dry_run := by
  induction ops generalizing s with
  | nil => rfl
  | cons op rest ih =>
    show (applyOps (applyOp s op) rest).dry_run = s.dry_run
    rw [ih, applyOp_dry_run]

theorem applyOp_envCleared (s : Subprocess) (op : BuilderOp) :
    (applyOp s op).envCleared = s.envCleared := by
  cases op <;> rfl

theorem applyOps_envCleared (ops : List BuilderOp) (s : Subprocess) :
    (applyOps s ops).envCleared = s.envCleared := by
  induction ops generalizing s with
  | nil => rfl
  | cons op rest ih =>
    show (applyOps (applyOp s op) rest).envCleared = s.envCleared
    rw [ih, applyOp_envCleared]

theorem applyOps_envOps (ops : List BuilderOp) (s : Subprocess) :
    (applyOps s ops).envOps = s.envOps ++ chainOverrides ops := by
  induction ops generalizing s with
  | nil => simp [applyOps, chainOverrides]
  | cons op rest ih =>
    show (applyOps (applyOp s op) rest).envOps = _
    rw [ih]
    cases op with
    | setEnv k v => simp [applyOp, Subprocess.env, chainOverrides]
    | addArg a => simp [applyOp, Subprocess.arg, chainOverrides]
    | addArgs as => simp [applyOp, Subprocess.args', chainOverrides]
    | makeSilent => simp [applyOp, Subprocess.silent, chainOverrides]

theorem lookup_append (k : String) (l1 l2 : EnvMap) :
    List.lookup k (l1 ++ l2) =
      (List.lookup k l1).orElse (fun _ => List.lookup k l2) := by
  induction l1 with
  | nil => simp [List.lookup]
  | cons a t ih =>
    obtain ⟨k1, v1⟩ := a
    by_cases h : k == k1
    · simp [List.lookup, h]
    · simp only [List.cons_append, List.lookup, h]
      exact ih

theorem lookupLast_append (a b : EnvMap) (k : String) :
    lookupLast (a ++ b) k =
      (lookupLast b k).orElse (fun _ => lookupLast a k) := by
  simp only [lookupLast, List.reverse_append]
  exact lookup_append k b.reverse a.reverse

theorem effectiveChildEnv_cleared (live : EnvMap) (s : Subprocess)
    (k : String) (h : s.envCleared = true) :
    effectiveChildEnv live s k = lookupLast s.envOps k := by
  unfold effectiveChildEnv
  cases lookupLast s.envOps k with
  | none => simp [h]
  | some v => simp

/-! ### Helper lemmas about the filesystem model -/

theorem lookup_mem {l : FS} {k : Path} {v : NodeKind}
    (h : List.lookup k l = some v) : (k, v) ∈ l := by
  induction l with
  | nil => cases h
  | cons e t ih =>
    obtain ⟨k1, v1⟩ := e
    by_cases hk : k = k1
    · subst hk
      simp [List.lookup] at h
      subst h
      exact List.mem_cons_self _ _
    · have hb : (k == k1) = false := beq_eq_false_iff_ne.mpr hk
      simp [List.lookup, hb] at h
      exact List.mem_cons_of_mem _ (ih h)

theorem kindOf_cons_self (fs : FS) (p : Path) (k : NodeKind)
    (hp : p ≠ []) : kindOf ((p, k) :: fs) p = some k := by
  simp [kindOf, hp, List.lookup]

theorem kindOf_cons_ne (fs : FS) (p q : Path) (k : NodeKind)
    (hne : q ≠ p) : kindOf ((p, k) :: fs) q = kindOf fs q := by
  by_cases hq : q = []
  · simp [kindOf, hq]
  · have hb : (q == p) = false := beq_eq_false_iff_ne.mpr hne
    simp [kindOf, hq, List.lookup, hb]

/-- On a well-formed filesystem, every prefix of a directory path is a
directory. -/
theorem WF_prefix_dir {fs : FS} (hwf : WF fs = true) {p q : Path}
    (hp : kindOf fs p = some NodeKind.dir) (hq : q <+: p) :
    kindOf fs q = some NodeKind.dir := by
  by_cases hnil : p = []
  · subst hnil
    have : q = [] := List.prefix_nil.mp hq
    subst this
    rfl
  · have hl : List.lookup p fs = some NodeKind.dir := by
      simpa [kindOf, hnil] using hp
    have hmem := lookup_mem hl
    have h1 := List.all_eq_true.mp hwf _ hmem
    have h2 := List.all_eq_true.mp h1 q ((List.mem_inits q p).mpr hq)
    rcases Bool.or_eq_true_iff.mp h2 with h3 | h3
    · have : q = p := by simpa using h3
      subst this
      simpa [kindOf, hnil] using hl
    · simpa using h3

/-- Unpacks a successful `mkdir`. -/
theorem mkdir_ok {fs : FS} {p : Path} {fs2 : FS}
    (h : mkdir fs p = Except.ok fs2) :
    fs2 = (p, NodeKind.dir) :: fs ∧ kindOf fs p = none ∧ p ≠ [] := by
  unfold mkdir at h
  split at h
  · exact Except.noConfusion h
  next h1 =>
    have hn : kindOf fs p = none := Option.not_isSome_iff_eq_none.mp h1
    split at h
    next => exact Except.noConfusion h
    next q hpar =>
      have hnil : p ≠ [] := by
        intro hc
        rw [hc] at hpar
        simp [Path.parent] at hpar
      split at h
      · exact ⟨(Except.ok.inj h).symm, hn, hnil⟩
      · exact Except.noConfusion h
      · exact Except.noConfusion h

/-- After a successful `cdaRev`, the target path and all its prefixes are
directories (given a well-formed starting filesystem). -/
theorem cdaRev_ok : ∀ (rp : List String) (fs : FS), WF fs = true →
    ∀ (r : Except IOErr Unit) (fs2 : FS), cdaRev fs rp = (r, fs2) →
    r = Except.ok () →
    ∀ q, q <+: rp.reverse → kindOf fs2 q = some NodeKind.dir := by
  intro rp
  induction rp with
  | nil =>
    intro fs hwf r fs2 heq hok q hq
    have hq2 : q = [] := List.prefix_nil.mp (by simpa using hq)
    subst hq2
    cases heq
    rfl
  | cons c rest ih =>
    intro fs hwf r fs2 heq hok q hq
    rw [cdaRev] at heq
    by_cases hdir : kindOf fs ((c :: rest).reverse) = some NodeKind.dir
    · rw [if_pos hdir] at heq
      cases heq
      exact WF_prefix_dir hwf hdir hq
    · rw [if_neg hdir] at heq
      split at heq
      next e fs1 hrec =>
        cases heq
        exact Except.noConfusion hok
      next a fs1 hrec =>
        split at heq
        next fs3 hmk =>
          cases heq
          obtain ⟨hfs3, hnone, hnil⟩ := mkdir_ok hmk
          subst hfs3
          by_cases hqp : q = (c :: rest).reverse
          · subst hqp
            exact kindOf_cons_self fs1 _ NodeKind.dir hnil
          · rw [kindOf_cons_ne fs1 _ q NodeKind.dir hqp]
            have hq2 : q <+: rest.reverse := by
              rw [List.reverse_cons] at hq hqp
              rcases (List.prefix_concat_iff).mp hq with h | h
              · exact absurd h hqp
              · exact h
            exact ih fs hwf (Except.ok a) fs1 hrec rfl q hq2
        next e hmk =>
          cases heq
          exact Except.noConfusion hok

/-- `Shell::create_dir` with `RECURSIVE` is `create_dir_all`, wrapped. -/
theorem create_dir_recursive_eq (fs : FS) (p : Path) :
    Shell.create_dir fs p CreateFlags.RECURSIVE =
      liftFs (create_dir_all fs p) := by
  simp [Shell.create_dir, CreateFlags.contains, CreateFlags.RECURSIVE]

theorem liftFs_ok {x : Except IOErr Unit × FS} {fs2 : FS}
    (h : liftFs x = (Except.ok (), fs2)) : x = (Except.ok (), fs2) := by
  obtain ⟨r, fsx⟩ := x
  cases r with
  | ok u =>
    cases u
    simp [liftFs] at h
    rw [h]
  | error e => simp [liftFs] at h

/-- Recursive creation is a no-op success when the target is already a
directory. -/
theorem create_dir_recursive_dir_noop (fs : FS) (p : Path)
    (h : kindOf fs p = some NodeKind.dir) :
    Shell.create_dir fs p CreateFlags.RECURSIVE = (Except.ok (), fs) := by
  rw [create_dir_recursive_eq]
  unfold create_dir_all
  cases hr : p.reverse with
  | nil => simp [cdaRev, liftFs]
  | cons c rest =>
    have hp : (c :: rest).reverse = p := by
      rw [← hr, List.reverse_reverse]
    simp [cdaRev, hp, h, liftFs]

/-! ### Claim theorems -/

/-- C1: for every Command Builder created (by any chain of configuration
calls) from a Context whose environment snapshot contains the `DRY_RUN`
sentinel, `run()` attempts no spawn, emits the skip notice, and returns
success whatever the spawn oracle would have answered. -/
theorem dry_run_skips_spawn (sh : Shell) (prog : String)
    (ops : List BuilderOp) (spawn : Except IOErr ExitStatus) (v : String)
    (h : List.lookup "DRY_RUN" sh.env_store = some v) :
    Subprocess.run (applyOps (sh.subprocess prog) ops) spawn =
      { result := Except.ok ()
        spawnAttempted := false
        notices := ["[cargo-xtask] - skipped"] } := by
  have hd : (applyOps (sh.subprocess prog) ops).dry_run = true := by
    rw [applyOps_dry_run]
    show (List.lookup "DRY_RUN" sh.env_store).isSome = true
    rw [h]
    rfl
  simp [Subprocess.run, hd]

/-- Witness for C1 at a concrete Context, chain, and oracle. -/
theorem dry_run_skips_spawn_witness :
    List.lookup "DRY_RUN"
        (Shell.mk [("DRY_RUN", "1")] ["r"] ["r", "target"]).env_store =
      some "1" ∧
    Subprocess.run
        (applyOps
          ((Shell.mk [("DRY_RUN", "1")] ["r"] ["r", "target"]).subprocess
            "touch")
          [BuilderOp.addArg "marker"])
        (Except.ok ⟨some 0⟩) =
      { result := Except.ok ()
        spawnAttempted := false
        notices := ["[cargo-xtask] - skipped"] } :=
  ⟨by decide,
    dry_run_skips_spawn (Shell.mk [("DRY_RUN", "1")] ["r"] ["r", "target"])
      "touch" [BuilderOp.addArg "marker"] (Except.ok ⟨some 0⟩) "1"
      (by decide)⟩

/-- C2: with dry-run unset and a successful spawn, `run()` succeeds on
exit code zero and otherwise fails with a message error whose text embeds
the observed exit code, substituting 0 when no code is available (signal
termination). -/
theorem run_exit_status (s : Subprocess) (st : ExitStatus)
    (h : s.dry_run = false) :
    (st.code = some 0 → (s.run (Except.ok st)).result = Except.ok ()) ∧
    (st.code ≠ some 0 →
      (s.run (Except.ok st)).result = Except.error
        ⟨ErrorKind.msg ("Subprocess failed with the exit code " ++
          toString (st.code.getD 0))⟩) ∧
    (st.code = none →
      (s.run (Except.ok st)).result = Except.error
        ⟨ErrorKind.msg "Subprocess failed with the exit code 0"⟩) := by
  refine ⟨fun hc => ?_, fun hc => ?_, fun hc => ?_⟩
  · simp [Subprocess.run, h, ExitStatus.success, hc]
  · have hs : st.success = false := by
      simp [ExitStatus.success]
      exact hc
    simp [Subprocess.run, h, hs]
  · have hs : st.success = false := by
      simp [ExitStatus.success, hc]
    simp [Subprocess.run, h, hs, hc]
    rfl

/-- Witness for C2: exit code 7 yields a message error containing "7";
signal termination (no code) yields the code-0 message; exit code 0
succeeds. -/
theorem run_exit_status_witness :
    ((Shell.mk [] ["r"] ["r", "target"]).subprocess "sh").dry_run =
      false ∧
    (((Shell.mk [] ["r"] ["r", "target"]).subprocess "sh").run
        (Except.ok ⟨some 7⟩)).result =
      Except.error
        ⟨ErrorKind.msg ("Subprocess failed with the exit code " ++
          toString ((some (7 : Int)).getD 0))⟩ ∧
    (((Shell.mk [] ["r"] ["r", "target"]).subprocess "sh").run
        (Except.ok ⟨none⟩)).result =
      Except.error ⟨ErrorKind.msg "Subprocess failed with the exit code 0"⟩ ∧
    (((Shell.mk [] ["r"] ["r", "target"]).subprocess "sh").run
        (Except.ok ⟨some 0⟩)).result = Except.ok () :=
  ⟨by decide,
    (run_exit_status ((Shell.mk [] ["r"] ["r", "target"]).subprocess "sh")
      ⟨some 7⟩ (by decide)).2.1 (by decide),
    (run_exit_status ((Shell.mk [] ["r"] ["r", "target"]).subprocess "sh")
      ⟨none⟩ (by decide)).2.2 rfl,
    (run_exit_status ((Shell.mk [] ["r"] ["r", "target"]).subprocess "sh")
      ⟨some 0⟩ (by decide)).1 rfl⟩

/-- C3: the child environment of any builder derived from
`Shell::subprocess` is exactly the snapshot overlaid with the chain's
`env` overrides (latest write per key wins), and is independent of the
calling process's live environment. -/
theorem child_env_reconstruction (sh : Shell) (prog : String)
    (ops : List BuilderOp) (live live2 : EnvMap) (k : String) :
    effectiveChildEnv live (applyOps (sh.subprocess prog) ops) k =
      (lookupLast (chainOverrides ops) k).orElse
        (fun _ => lookupLast sh.env_store k) ∧
    effectiveChildEnv live (applyOps (sh.subprocess prog) ops) k =
      effectiveChildEnv live2 (applyOps (sh.subprocess prog) ops) k := by
  have hc : (applyOps (sh.subprocess prog) ops).envCleared = true := by
    rw [applyOps_envCleared]; rfl
  have he : (applyOps (sh.subprocess prog) ops).envOps =
      sh.env_store ++ chainOverrides ops := by
    rw [applyOps_envOps]; rfl
  refine ⟨?_, ?_⟩
  · rw [effectiveChildEnv_cleared live _ k hc, he, lookupLast_append]
  · rw [effectiveChildEnv_cleared live _ k hc,
      effectiveChildEnv_cleared live2 _ k hc]

/-- C8: `rustc()`/`cargo()` are `subprocess` applied to the tool path
resolved with priority snapshot variable, then compile-time default, then
bare tool name. -/
theorem tool_resolution (sh : Shell) (buildEnv : String → Option String) :
    (Shell.rustc sh buildEnv = sh.subprocess
        (((List.lookup "RUSTC" sh.env_store).orElse
          (fun _ => buildEnv "RUSTC")).getD "rustc") ∧
      Shell.cargo sh buildEnv = sh.subprocess
        (((List.lookup "CARGO" sh.env_store).orElse
          (fun _ => buildEnv "CARGO")).getD "cargo")) ∧
    (∀ v, List.lookup "RUSTC" sh.env_store = some v →
      (Shell.rustc sh buildEnv).program = v) ∧
    (∀ w, List.lookup "RUSTC" sh.env_store = none →
      buildEnv "RUSTC" = some w → (Shell.rustc sh buildEnv).program = w) ∧
    (List.lookup "RUSTC" sh.env_store = none → buildEnv "RUSTC" = none →
      (Shell.rustc sh buildEnv).program = "rustc") ∧
    (∀ v, List.lookup "CARGO" sh.env_store = some v →
      (Shell.cargo sh buildEnv).program = v) ∧
    (∀ w, List.lookup "CARGO" sh.env_store = none →
      buildEnv "CARGO" = some w → (Shell.cargo sh buildEnv).program = w) ∧
    (List.lookup "CARGO" sh.env_store = none → buildEnv "CARGO" = none →
      (Shell.cargo sh buildEnv).program = "cargo") := by
  refine ⟨⟨rfl, rfl⟩, ?_, ?_, ?_, ?_, ?_, ?_⟩
  · intro v hv
    simp [Shell.rustc, Shell.subprocess, hv]
  · intro w h1 h2
    simp [Shell.rustc, Shell.subprocess, h1, h2, Option.orElse]
  · intro h1 h2
    simp [Shell.rustc, Shell.subprocess, h1, h2, Option.orElse]
  · intro v hv
    simp [Shell.cargo, Shell.subprocess, hv]
  · intro w h1 h2
    simp [Shell.cargo, Shell.subprocess, h1, h2, Option.orElse]
  · intro h1 h2
    simp [Shell.cargo, Shell.subprocess, h1, h2, Option.orElse]

/-- Witness for C8 exercising all three priority levels. -/
theorem tool_resolution_witness :
    (Shell.rustc (Shell.mk [("RUSTC", "/opt/rc")] [] [])
        (fun _ => none)).program = "/opt/rc" ∧
    (Shell.cargo (Shell.mk [] [] [])
        (fun k => if k = "CARGO" then some "/baked/cg" else none)).program =
      "/baked/cg" ∧
    (Shell.rustc (Shell.mk [] [] []) (fun _ => none)).program = "rustc" :=
  ⟨(tool_resolution (Shell.mk [("RUSTC", "/opt/rc")] [] [])
      (fun _ => none)).2.1 "/opt/rc" (by decide),
    (tool_resolution (Shell.mk [] [] [])
      (fun k => if k = "CARGO" then some "/baked/cg" else none)).2.2.2.2.2.1
      "/baked/cg" (by decide) (by decide),
    (tool_resolution (Shell.mk [] [] []) (fun _ => none)).2.2.2.1
      (by decide) rfl⟩

/-- C4: removing a path that does not exist succeeds as a no-op, for every
flags value, and leaves the filesystem unchanged. -/
theorem remove_absent_noop (fs : FS) (p : Path) (flags : RemoveFlags)
    (h : kindOf fs p = none) :
    Shell.remove fs p flags = (Except.ok (), fs) := by
  simp [Shell.remove, h]

/-- Witness for C4 at a concrete filesystem, path, and flags value. -/
theorem remove_absent_noop_witness :
    kindOf ([(["existing"], NodeKind.file)] : FS) ["x"] = none ∧
    Shell.remove [(["existing"], NodeKind.file)] ["x"] ⟨1⟩ =
      (Except.ok (), [(["existing"], NodeKind.file)]) :=
  ⟨by decide,
    remove_absent_noop [(["existing"], NodeKind.file)] ["x"] ⟨1⟩
      (by decide)⟩

/-- C10: removing an existing path that is neither a directory nor a
regular file succeeds as a no-op for every flags value, leaving the
filesystem unchanged (the fall-through third outcome of the
classification in `Shell::remove`). -/
theorem remove_other_kind_noop (fs : FS) (p : Path) (flags : RemoveFlags)
    (h : kindOf fs p = some NodeKind.other) :
    Shell.remove fs p flags = (Except.ok (), fs) := by
  simp [Shell.remove, h]

/-- Witness for C10: a dangling-symlink-like node survives `remove`
untouched, under both flags values. -/
theorem remove_other_kind_noop_witness :
    kindOf ([(["x"], NodeKind.other)] : FS) ["x"] = some NodeKind.other ∧
    Shell.remove [(["x"], NodeKind.other)] ["x"] ⟨0⟩ =
      (Except.ok (), [(["x"], NodeKind.other)]) ∧
    Shell.remove [(["x"], NodeKind.other)] ["x"] ⟨1⟩ =
      (Except.ok (), [(["x"], NodeKind.other)]) :=
  ⟨by decide,
    remove_other_kind_noop [(["x"], NodeKind.other)] ["x"] ⟨0⟩ (by decide),
    remove_other_kind_noop [(["x"], NodeKind.other)] ["x"] ⟨1⟩ (by decide)⟩

/-- C5: recursive creation creates every missing ancestor and is
idempotent (succeeds when the target already is a directory, and a second
call after a success succeeds again); non-recursive creation fails when
the target exists or when the parent is not an existing directory, and
otherwise creates exactly the one requested level. -/
theorem create_dir_spec :
    (∀ (fs : FS) (p : Path), kindOf fs p = some NodeKind.dir →
      Shell.create_dir fs p CreateFlags.RECURSIVE = (Except.ok (), fs)) ∧
    (∀ (fs : FS) (p : Path) (fs2 : FS), WF fs = true →
      Shell.create_dir fs p CreateFlags.RECURSIVE = (Except.ok (), fs2) →
      (∀ q, q <+: p → kindOf fs2 q = some NodeKind.dir) ∧
      Shell.create_dir fs2 p CreateFlags.RECURSIVE =
        (Except.ok (), fs2)) ∧
    (∀ (fs : FS) (p : Path) (flags : CreateFlags),
      flags.contains CreateFlags.RECURSIVE = false →
      (kindOf fs p).isSome = true →
      (Shell.create_dir fs p flags).1 =
        Except.error ⟨ErrorKind.ioError IOErr.alreadyExists⟩) ∧
    (∀ (fs : FS) (p q : Path) (flags : CreateFlags),
      flags.contains CreateFlags.RECURSIVE = false →
      p.parent = some q → kindOf fs q ≠ some NodeKind.dir →
      ∃ e, (Shell.create_dir fs p flags).1 = Except.error e) ∧
    (∀ (fs : FS) (p q : Path) (flags : CreateFlags),
      flags.contains CreateFlags.RECURSIVE = false →
      p.parent = some q → kindOf fs q = some NodeKind.dir →
      kindOf fs p = none →
      Shell.create_dir fs p flags =
        (Except.ok (), (p, NodeKind.dir) :: fs)) := by
  refine ⟨create_dir_recursive_dir_noop, ?_, ?_, ?_, ?_⟩
  · intro fs p fs2 hwf heq
    rw [create_dir_recursive_eq] at heq
    have heq2 : cdaRev fs p.reverse = (Except.ok (), fs2) := liftFs_ok heq
    have hall : ∀ q, q <+: p → kindOf fs2 q = some NodeKind.dir := by
      intro q hq
      exact cdaRev_ok p.reverse fs hwf (Except.ok ()) fs2 heq2 rfl q
        (by rwa [List.reverse_reverse])
    exact ⟨hall,
      create_dir_recursive_dir_noop fs2 p (hall p List.prefix_rfl)⟩
  · intro fs p flags hflag hsome
    simp [Shell.create_dir, hflag, mkdir, hsome]
  · intro fs p q flags hflag hpar hq
    by_cases hsome : (kindOf fs p).isSome
    · exact ⟨⟨ErrorKind.ioError IOErr.alreadyExists⟩,
        by simp [Shell.create_dir, hflag, mkdir, hsome]⟩
    · have hn : kindOf fs p = none :=
        Option.not_isSome_iff_eq_none.mp hsome
      cases hk : kindOf fs q with
      | none =>
        exact ⟨⟨ErrorKind.ioError IOErr.notFound⟩,
          by simp [Shell.create_dir, hflag, mkdir, hn, hpar, hk]⟩
      | some nk =>
        cases nk with
        | dir => exact absurd hk hq
        | file =>
          exact ⟨⟨ErrorKind.ioError IOErr.notADirectory⟩,
            by simp [Shell.create_dir, hflag, mkdir, hn, hpar, hk]⟩
        | other =>
          exact ⟨⟨ErrorKind.ioError IOErr.notADirectory⟩,
            by simp [Shell.create_dir, hflag, mkdir, hn, hpar, hk]⟩
  · intro fs p q flags hflag hpar hq hnone
    simp [Shell.create_dir, hflag, mkdir, hnone, hpar, hq]

/-- Witness for C5 exercising each conjunct at concrete inputs. -/
theorem create_dir_spec_witness :
    Shell.create_dir [(["a"], NodeKind.dir)] ["a"] CreateFlags.RECURSIVE =
      (Except.ok (), [(["a"], NodeKind.dir)]) ∧
    kindOf ([(["a", "b"], NodeKind.dir), (["a"], NodeKind.dir)] : FS)
        ["a"] = some NodeKind.dir ∧
    Shell.create_dir [(["a", "b"], NodeKind.dir), (["a"], NodeKind.dir)]
        ["a", "b"] CreateFlags.RECURSIVE =
      (Except.ok (),
        [(["a", "b"], NodeKind.dir), (["a"], NodeKind.dir)]) ∧
    (Shell.create_dir [(["a"], NodeKind.dir)] ["a"] ⟨0⟩).1 =
      Except.error ⟨ErrorKind.ioError IOErr.alreadyExists⟩ ∧
    (∃ e, (Shell.create_dir ([] : FS) ["a", "b"] ⟨0⟩).1 =
      Except.error e) ∧
    Shell.create_dir ([] : FS) ["a"] ⟨0⟩ =
      (Except.ok (), [(["a"], NodeKind.dir)]) :=
  ⟨create_dir_spec.1 [(["a"], NodeKind.dir)] ["a"] (by decide),
    (create_dir_spec.2.1 [] ["a", "b"]
      [(["a", "b"], NodeKind.dir), (["a"], NodeKind.dir)] (by decide)
      (by decide)).1 ["a"] (by decide),
    (create_dir_spec.2.1 [] ["a", "b"]
      [(["a", "b"], NodeKind.dir), (["a"], NodeKind.dir)] (by decide)
      (by decide)).2,
    create_dir_spec.2.2.1 [(["a"], NodeKind.dir)] ["a"] ⟨0⟩ (by decide)
      (by decide),
    create_dir_spec.2.2.2.1 [] ["a", "b"] ["a"] ⟨0⟩ (by decide) (by decide)
      (by decide),
    create_dir_spec.2.2.2.2 [] ["a"] [] ⟨0⟩ (by decide) (by decide)
      (by decide) (by decide)⟩

/-- C6 counterexample: with root-marker `/repo/crates/xtask` the code's
`ancestors().nth(1)` yields `/repo/crates`, not the `/repo` that the
claim's example asserts (and the target dir is `/repo/crates/target`, not
`/repo/target`). -/
theorem project_root_example_refuted :
    (Shell.new [("CARGO_MANIFEST_DIR", "/repo/crates/xtask")]
        (fun _ => none)).toOption.map Shell.project_root ≠
      some (parsePath "/repo") ∧
    (Shell.new [("CARGO_MANIFEST_DIR", "/repo/crates/xtask")]
        (fun _ => none)).toOption.map Shell.project_root =
      some (parsePath "/repo/crates") := by
  exact ⟨by decide, by decide⟩

/-- C6 amended: the project root is the root-marker directory with one
trailing component removed, and with no output override the target dir is
that root joined with `target`; root-marker `/repo/crates/xtask` yields
project root `/repo/crates` and target dir `/repo/crates/target`. -/
theorem shell_new_resolves_paths (envs : EnvMap)
    (buildEnv : String → Option String) (m : String)
    (h1 : List.lookup "CARGO_MANIFEST_DIR" envs = some m)
    (h2 : List.lookup "CARGO_TARGET_DIR" envs = none)
    (h3 : parsePath m ≠ []) :
    Shell.new envs buildEnv =
      Except.ok ⟨envs, (parsePath m).dropLast,
        (parsePath m).dropLast ++ ["target"]⟩ := by
  unfold Shell.new
  rw [h1]
  simp [Path.parent, h2, h3]

/-- Witness for C6 (amended) at the claim's own example root-marker. -/
theorem shell_new_resolves_paths_witness :
    List.lookup "CARGO_MANIFEST_DIR"
        [("CARGO_MANIFEST_DIR", "/repo/crates/xtask")] =
      some "/repo/crates/xtask" ∧
    List.lookup "CARGO_TARGET_DIR"
        [("CARGO_MANIFEST_DIR", "/repo/crates/xtask")] = none ∧
    parsePath "/repo/crates/xtask" ≠ [] ∧
    Shell.new [("CARGO_MANIFEST_DIR", "/repo/crates/xtask")]
        (fun _ => none) =
      Except.ok ⟨[("CARGO_MANIFEST_DIR", "/repo/crates/xtask")],
        (parsePath "/repo/crates/xtask").dropLast,
        (parsePath "/repo/crates/xtask").dropLast ++ ["target"]⟩ :=
  ⟨by decide, by decide, by decide,
    shell_new_resolves_paths [("CARGO_MANIFEST_DIR", "/repo/crates/xtask")]
      (fun _ => none) "/repo/crates/xtask" (by decide) (by decide)
      (by decide)⟩

/-- C7 counterexample: the root-marker variable is absent from the runtime
environment snapshot, yet construction does not abort — it falls back to
the compile-time `option_env!` value and succeeds. -/
theorem missing_runtime_marker_no_abort :
    List.lookup "CARGO_MANIFEST_DIR" ([] : EnvMap) = none ∧
    Shell.new []
        (fun k => if k = "CARGO_MANIFEST_DIR" then some "/build/xtask"
          else none) =
      Except.ok ⟨[], ["build"], ["build", "target"]⟩ := by
  exact ⟨rfl, by decide⟩

/-- C7 amended: construction aborts the process (panics) when the
root-marker variable is absent from both the runtime environment snapshot
and the build-time environment. -/
theorem new_aborts_without_any_marker (envs : EnvMap)
    (buildEnv : String → Option String)
    (h1 : List.lookup "CARGO_MANIFEST_DIR" envs = none)
    (h2 : buildEnv "CARGO_MANIFEST_DIR" = none) :
    Shell.new envs buildEnv = Except.error Panic.missingManifestDir := by
  unfold Shell.new
  rw [h1]
  simp [h2, Option.orElse]

/-- Witness for C7 (amended): both environments empty. -/
theorem new_aborts_without_any_marker_witness :
    List.lookup "CARGO_MANIFEST_DIR" ([] : EnvMap) = none ∧
    (fun _ : String => (none : Option String)) "CARGO_MANIFEST_DIR" =
      none ∧
    Shell.new [] (fun _ => none) =
      Except.error Panic.missingManifestDir :=
  ⟨rfl, rfl, new_aborts_without_any_marker [] (fun _ => none) rfl rfl⟩

/-- C9: the missing-root-marker abort fires exactly when the variable is
absent from both the runtime snapshot and the build-time environment, and
a missing runtime variable alone does not abort when the build-time value
is usable: construction succeeds with the project root derived from the
baked value. -/
theorem buildtime_manifest_fallback :
    (∀ (envs : EnvMap) (buildEnv : String → Option String),
      Shell.new envs buildEnv = Except.error Panic.missingManifestDir ↔
        List.lookup "CARGO_MANIFEST_DIR" envs = none ∧
          buildEnv "CARGO_MANIFEST_DIR" = none) ∧
    (∀ (envs : EnvMap) (buildEnv : String → Option String) (v : String),
      List.lookup "CARGO_MANIFEST_DIR" envs = none →
      buildEnv "CARGO_MANIFEST_DIR" = some v → parsePath v ≠ [] →
      ∃ sh, Shell.new envs buildEnv = Except.ok sh ∧
        sh.project_root = (parsePath v).dropLast) := by
  constructor
  · intro envs buildEnv
    constructor
    · intro h
      cases hl : List.lookup "CARGO_MANIFEST_DIR" envs with
      | some m =>
        cases hp : (parsePath m).parent with
        | none => simp [Shell.new, hl, hp, Option.orElse] at h
        | some root => simp [Shell.new, hl, hp, Option.orElse] at h
      | none =>
        cases hb : buildEnv "CARGO_MANIFEST_DIR" with
        | none => exact ⟨rfl, rfl⟩
        | some m =>
          cases hp : (parsePath m).parent with
          | none => simp [Shell.new, hl, hb, hp, Option.orElse] at h
          | some root => simp [Shell.new, hl, hb, hp, Option.orElse] at h
    · intro ⟨h1, h2⟩
      unfold Shell.new
      rw [h1]
      simp [h2, Option.orElse]
  · intro envs buildEnv v h1 h2 h3
    unfold Shell.new
    rw [h1]
    simp only [Option.none_orElse, h2]
    cases ht : List.lookup "CARGO_TARGET_DIR" envs with
    | none =>
      exact ⟨⟨envs, (parsePath v).dropLast,
        (parsePath v).dropLast ++ ["target"]⟩, by simp [Path.parent, h3, ht],
        rfl⟩
    | some t =>
      exact ⟨⟨envs, (parsePath v).dropLast, parsePath t⟩,
        by simp [Path.parent, h3, ht], rfl⟩

/-- Witness for C9 at an empty runtime snapshot with a baked root. -/
theorem buildtime_manifest_fallback_witness :
    ∃ sh, Shell.new ([] : EnvMap)
        (fun k => if k = "CARGO_MANIFEST_DIR" then some "/build/xtask"
          else none) =
      Except.ok sh ∧
      sh.project_root = (parsePath "/build/xtask").dropLast :=
  buildtime_manifest_fallback.2 []
    (fun k => if k = "CARGO_MANIFEST_DIR" then some "/build/xtask"
      else none)
    "/build/xtask" (by decide) (by decide) (by decide)

end TaskiShell
